import Mathlib

/-
Shallow embedding of src/main.py (ANCE.AI): a metered, authenticated gateway
in front of a completion service.

Modelling conventions:
- Timestamps (datetime.utcnow, cycle_end) are integers counting seconds;
  timedelta(days=30) is the constant thirtyDays.
- The Float columns tokens_used and quota are modelled as rationals: every
  value the endpoints ever store or compare (0.0, 500.0, small integer token
  counts) is exactly representable, so Float and rational arithmetic agree
  on all reachable values.
- bcrypt hashing is modelled as an injective pure function pwd_hash with
  pwd_verify p h testing h = pwd_hash p; this captures the functional
  contract (verification succeeds exactly on the hashed password).
- A JWT is modelled as either a signed payload carrying the signing key, or
  a malformed blob; jwt.decode succeeds exactly when the token is well
  formed and signed with the expected key. Reading payload["sub"] fails
  when the sub claim is absent. decodeSub combines jwt.decode and the
  payload["sub"] lookup, the two operations the endpoints perform.
- The openai chat-completions call is passed in as an explicit Upstream
  value: either a completed response (content plus optional usage count,
  resp.usage being None modelled as Option.none) or a raised exception.
- HTTPException(code, msg) becomes Err.http code msg; an exception that the
  handler does not catch (and that FastAPI turns into a generic 500)
  becomes Err.unhandled.
- Each endpoint is a function from its inputs and the database to a result
  paired with the database after the request, making every mutation (or
  its absence) explicit.
-/

namespace AnceAI

/-- Model of pwd_context.hash (bcrypt): an injective one-way function. -/
def pwd_hash (password : String) : String := "bcrypt$" ++ password

/-- Model of pwd_context.verify: succeeds exactly when the stored hash is
the hash of the presented password. -/
def pwd_verify (password stored : String) : Bool := stored == pwd_hash password

/-- Value of os.getenv("SECRET_KEY", "secret") in the reference deployment. -/
def secretKey : String := "secret"

/-- Seconds in timedelta(days=30). -/
def thirtyDays : Int := 30 * 86400

/-- Decoded JWT payload: either it carries the "sub" claim or it does not. -/
inductive Payload where
  | withSub (sub : Nat)
  | noSub
deriving DecidableEq, Repr

/-- Bearer token as presented by a client: a payload signed with some key,
or a malformed blob that jwt.decode rejects outright. -/
inductive Token where
  | signed (payload : Payload) (key : String)
  | malformed (raw : String)
deriving DecidableEq, Repr

/-- Model of jwt.encode({"sub": uid}, key, algorithm="HS256"). -/
def jwt_encode (uid : Nat) (key : String) : Token :=
  Token.signed (Payload.withSub uid) key

/-- Combined jwt.decode + payload["sub"]: some uid when the signature
validates, the payload is well formed and the sub claim is present;
none on any of the three failure kinds. -/
def decodeSub (tok : Token) (key : String) : Option Nat :=
  match tok with
  | Token.malformed _ => none
  | Token.signed p k =>
      if k = key then
        match p with
        | Payload.withSub n => some n
        | Payload.noSub => none
      else none

/-- Row of the users table. -/
structure User where
  id : Nat
  email : String
  hashed_password : String
  is_active : Bool := true
deriving DecidableEq, Repr

/-- Row of the subscriptions table. -/
structure Subscription where
  id : Nat
  user_id : Nat
  status : String := "active"
  cycle_end : Int
  tokens_used : ℚ := 0
  quota : ℚ := 500
deriving DecidableEq, Repr

/-- The database: both tables in insertion order, plus the next
autoincrement primary keys. -/
structure DB where
  users : List User
  subs : List Subscription
  nextUserId : Nat
  nextSubId : Nat
deriving DecidableEq, Repr

/-- Fresh store right after Base.metadata.create_all. -/
def initDB : DB := { users := [], subs := [], nextUserId := 1, nextSubId := 1 }

/-- db.query(User).filter(User.email == email).first() -/
def findUser (db : DB) (email : String) : Option User :=
  db.users.find? (fun u => u.email == email)

/-- db.query(Subscription).filter(Subscription.user_id == uid).first() -/
def findSub (db : DB) (uid : Nat) : Option Subscription :=
  db.subs.find? (fun s => s.user_id == uid)

/-- Number of user rows with the given email. -/
def countUsers (db : DB) (email : String) : Nat :=
  db.users.countP (fun u => u.email == email)

/-- Number of subscription rows with the given user_id. -/
def countSubs (db : DB) (uid : Nat) : Nat :=
  db.subs.countP (fun s => s.user_id == uid)

/-- Client-observable failure of a request. -/
inductive Err where
  | http (status : Nat) (detail : String)
  | unhandled
deriving DecidableEq, Repr

/-- POST /register. On a duplicate email it raises HTTPException(400)
before any insert; otherwise it inserts the user row and then the
subscription row with the column defaults and cycle_end = now + 30 days. -/
def register (now : Int) (email password : String) (db : DB) :
    Except Err String × DB :=
  if (findUser db email).isSome then
    (Except.error (Err.http 400 "Email already registered"), db)
  else
    let hashed := pwd_hash password
    let db_user : User := { id := db.nextUserId, email := email, hashed_password := hashed }
    let sub : Subscription := { id := db.nextSubId, user_id := db_user.id,
                                cycle_end := now + thirtyDays }
    (Except.ok "Registered! Login now.",
      { users := db.users ++ [db_user], subs := db.subs ++ [sub],
        nextUserId := db.nextUserId + 1, nextSubId := db.nextSubId + 1 })

/-- POST /login: a single 400 "Invalid credentials" covers both a missing
email and a failed hash verification; on success a token binding the user
id is signed with the secret key. Does not mutate the store. -/
def login (email password : String) (db : DB) : Except Err Token :=
  match findUser db email with
  | none => Except.error (Err.http 400 "Invalid credentials")
  | some db_user =>
      if pwd_verify password db_user.hashed_password then
        Except.ok (jwt_encode db_user.id secretKey)
      else Except.error (Err.http 400 "Invalid credentials")

/-- Body of a /chat request. -/
structure ChatRequest where
  message : String
  type : String := "text"
deriving DecidableEq, Repr

/-- Outcome of the openai.chat.completions.create call: a completed
response (content plus resp.usage.total_tokens, or none when resp.usage is
None), or a raised exception. -/
inductive Upstream where
  | completed (content : String) (totalTokens : Option Nat)
  | failed
deriving DecidableEq, Repr

/-- Successful response body of /chat. -/
inductive ChatBody where
  | completion (response : String) (tokens : Nat)
  | onlyTextSupported
deriving DecidableEq, Repr

/-- Steps of /chat after token verification succeeded with the given
user_id: subscription lookup and admission test, then the upstream call on
a text request, else the {"error": "Only text supported"} body. -/
def chatAdmitted (now : Int) (request : ChatRequest) (user_id : Nat)
    (up : Upstream) (db : DB) : Except Err ChatBody × DB :=
  match findSub db user_id with
  | none => (Except.error (Err.http 403 "Quota exceeded"), db)
  | some sub =>
      if now > sub.cycle_end ∨ sub.tokens_used ≥ sub.quota then
        (Except.error (Err.http 403 "Quota exceeded"), db)
      else if request.type = "text" then
        match up with
        | Upstream.failed => (Except.error Err.unhandled, db)
        | Upstream.completed content totalTokens =>
            let tokens := totalTokens.getD 50
            (Except.ok (ChatBody.completion content tokens), db)
      else (Except.ok ChatBody.onlyTextSupported, db)

/-- POST /chat: the try/except around jwt.decode and payload["sub"] turns
every verification failure into HTTPException(401, "Invalid token"); then
the admitted pipeline runs. -/
def chat (now : Int) (request : ChatRequest) (tok : Token) (up : Upstream)
    (db : DB) : Except Err ChatBody × DB :=
  match decodeSub tok secretKey with
  | none => (Except.error (Err.http 401 "Invalid token"), db)
  | some user_id => chatAdmitted now request user_id up db

/-- Response body of /usage. -/
structure UsageBody where
  used : ℚ
  quota : ℚ
deriving DecidableEq, Repr

/-- GET /usage: jwt.decode and payload["sub"] are not wrapped in any
try/except, so a verification failure propagates as an unhandled
exception; likewise sub.tokens_used on a missing subscription row raises
AttributeError. Does not mutate the store. -/
def usage (tok : Token) (db : DB) : Except Err UsageBody :=
  match decodeSub tok secretKey with
  | none => Except.error Err.unhandled
  | some uid =>
      match findSub db uid with
      | none => Except.error Err.unhandled
      | some sub => Except.ok { used := sub.tokens_used, quota := sub.quota }

/-- True when the request was answered by raising an exception (an HTTP
error status), false when the handler returned a body (HTTP 200). -/
def isRaised {α : Type} (r : Except Err α) : Bool :=
  match r with
  | Except.error _ => true
  | Except.ok _ => false

/-- One client-visible operation of the system, with its ambient inputs
(current time, token, upstream outcome) made explicit. -/
inductive Op where
  | opRegister (now : Int) (email password : String)
  | opLogin (email password : String)
  | opChat (now : Int) (request : ChatRequest) (tok : Token) (up : Upstream)
  | opUsage (tok : Token)
deriving DecidableEq, Repr

/-- Effect of one operation on the store (login and usage only read). -/
def step (db : DB) (op : Op) : DB :=
  match op with
  | Op.opRegister now e p => (register now e p db).2
  | Op.opLogin _ _ => db
  | Op.opChat now r t u => (chat now r t u db).2
  | Op.opUsage _ => db

/-- Store reached from db by a sequence of operations. -/
def run (db : DB) : List Op → DB
  | [] => db
  | op :: rest => run (step db op) rest

/-- Admission condition of /chat read off the code: the request is
rejected when there is no subscription row for the user, the cycle has
expired, or the quota is used up. -/
def admissionRejected (now : Int) (db : DB) (uid : Nat) : Bool :=
  match findSub db uid with
  | none => true
  | some sub => decide (now > sub.cycle_end) || decide (sub.tokens_used ≥ sub.quota)

instance {α β : Type} [DecidableEq α] [DecidableEq β] : DecidableEq (Except α β) := fun a b =>
  match a, b with
  | Except.error x, Except.error y =>
      if h : x = y then isTrue (by rw [h]) else isFalse (fun hc => h (by injection hc))
  | Except.ok x, Except.ok y =>
      if h : x = y then isTrue (by rw [h]) else isFalse (fun hc => h (by injection hc))
  | Except.error _, Except.ok _ => isFalse (fun hc => Except.noConfusion hc)
  | Except.ok _, Except.error _ => isFalse (fun hc => Except.noConfusion hc)

/-- Store after registering a@x.com with password pw123 at time 0. -/
def dbReg : DB := (register 0 "a@x.com" "pw123" initDB).2

/-- Token that login issues for the first registered user. -/
def tok1 : Token := Token.signed (Payload.withSub 1) "secret"

/-- Plain text chat request. -/
def req0 : ChatRequest := { message := "hi" }

/-- Completed upstream response whose usage reports 10 total tokens. -/
def up10 : Upstream := Upstream.completed "out" (some 10)

/-- User row as stored for a@x.com. -/
def userA : User := { id := 1, email := "a@x.com", hashed_password := pwd_hash "pw123" }

/-- Store holding the account but no subscription row. -/
def dbNoSub : DB := { users := [userA], subs := [], nextUserId := 2, nextSubId := 1 }

/-- Store whose only subscription has tokens_used = quota = 500 (quota
exhausted, cycle still running at time 0). -/
def dbExhausted : DB :=
  { users := [userA],
    subs := [{ id := 1, user_id := 1, cycle_end := 1000, tokens_used := 500 }],
    nextUserId := 2, nextSubId := 2 }

/-- Store whose only subscription has an already-passed cycle_end at time
0 and no usage. -/
def dbExpired : DB :=
  { users := [userA],
    subs := [{ id := 1, user_id := 1, cycle_end := -1 }],
    nextUserId := 2, nextSubId := 2 }

/-- C1: the end-to-end scenario on the code. Register a@x.com with pw123,
log in, chat with a valid token and a completed upstream response of cost
10: the chat succeeds and even reports cost 10 in its body, yet the store
is returned unchanged, and the subsequent usage query reports used = 0
rather than the accumulated 10 the claim requires — no step of the chat
handler ever adds the cost to tokens_used. -/
theorem c1_cost_never_committed :
    login "a@x.com" "pw123" dbReg = Except.ok tok1 ∧
    chat 0 req0 tok1 up10 dbReg = (Except.ok (ChatBody.completion "out" 10), dbReg) ∧
    usage tok1 dbReg = Except.ok { used := 0, quota := 500 } := by decide

/-- C2 counterexample: three stores in which the three distinct admission
failure conditions hold (no subscription row, cycle expired, quota
exhausted) all produce the bitwise identical rejection 403 "Quota
exceeded" from chat — the rejection carries no specific reason, contrary
to the claim. -/
theorem c2_counterexample :
    (chat 0 req0 tok1 up10 dbNoSub).1 = Except.error (Err.http 403 "Quota exceeded") ∧
    (chat 0 req0 tok1 up10 dbExpired).1 = Except.error (Err.http 403 "Quota exceeded") ∧
    (chat 0 req0 tok1 up10 dbExhausted).1 = Except.error (Err.http 403 "Quota exceeded") ∧
    (chat 0 req0 tok1 up10 dbNoSub).1 = (chat 0 req0 tok1 up10 dbExhausted).1 := by decide

/-- C2 amended: whenever the admission condition rejects — exactly when
there is no subscription, the cycle has expired, or the quota is
exhausted — chat fails with the single undifferentiated 403 "Quota
exceeded" error, leaves the store unchanged, and its outcome is
independent of the upstream service (no upstream call is made). -/
theorem c2_rejection_uniform_no_upstream_call (now : Int) (req : ChatRequest)
    (tok : Token) (up up' : Upstream) (db : DB) (uid : Nat)
    (hdec : decodeSub tok secretKey = some uid)
    (hrej : admissionRejected now db uid = true) :
    chat now req tok up db = (Except.error (Err.http 403 "Quota exceeded"), db) ∧
    chat now req tok up db = chat now req tok up' db := by
  have hmain : ∀ u : Upstream,
      chat now req tok u db = (Except.error (Err.http 403 "Quota exceeded"), db) := by
    intro u
    rcases hfs : findSub db uid with _ | sub
    · simp [chat, chatAdmitted, hdec, hfs]
    · unfold admissionRejected at hrej
      rw [hfs] at hrej
      simp only [Bool.or_eq_true, decide_eq_true_eq] at hrej
      simp [chat, chatAdmitted, hdec, hfs, hrej]
  exact ⟨hmain up, (hmain up).trans (hmain up').symm⟩

/-- C2 witness: the amended theorem applied to the store with no
subscription row. -/
theorem c2_rejection_witness :
    decodeSub tok1 secretKey = some 1 ∧
    admissionRejected 0 dbNoSub 1 = true ∧
    (chat 0 req0 tok1 up10 dbNoSub = (Except.error (Err.http 403 "Quota exceeded"), dbNoSub) ∧
     chat 0 req0 tok1 up10 dbNoSub = chat 0 req0 tok1 Upstream.failed dbNoSub) :=
  ⟨by decide, by decide,
   c2_rejection_uniform_no_upstream_call 0 req0 tok1 up10 Upstream.failed dbNoSub 1
     (by decide) (by decide)⟩

/-- C3 counterexample: with one and the same malformed token, chat fails
with the uniform 401 "Invalid token" error, but the usage query fails
with an unhandled exception (its jwt.decode call sits outside any
try/except), which is a different outcome — the claimed uniformity across
both protected operations does not hold. -/
theorem c3_counterexample :
    (chat 0 req0 (Token.malformed "zzz") up10 dbReg).1 =
      Except.error (Err.http 401 "Invalid token") ∧
    usage (Token.malformed "zzz") dbReg = Except.error Err.unhandled ∧
    Err.unhandled ≠ Err.http 401 "Invalid token" := by decide

/-- C3 amended: for every token on which verification fails (bad
signature, malformed payload, or absent sub claim, i.e. decodeSub returns
none), chat fails with the uniform 401 "Invalid token" error, while the
usage query fails with an unhandled exception; each endpoint is uniform
across the failure kinds, but the two endpoints do not share the single
InvalidToken outcome the claim states. -/
theorem c3_verification_failures (tok : Token) (now : Int) (req : ChatRequest)
    (up : Upstream) (db : DB)
    (h : decodeSub tok secretKey = none) :
    (chat now req tok up db).1 = Except.error (Err.http 401 "Invalid token") ∧
    usage tok db = Except.error Err.unhandled := by
  constructor
  · unfold chat
    rw [h]
  · unfold usage
    rw [h]

/-- C3 witness: the amended theorem applied to a malformed token against
the store with no subscription row. -/
theorem c3_verification_witness :
    decodeSub (Token.malformed "xx") secretKey = none ∧
    ((chat 5 req0 (Token.malformed "xx") up10 dbNoSub).1 =
       Except.error (Err.http 401 "Invalid token") ∧
     usage (Token.malformed "xx") dbNoSub = Except.error Err.unhandled) :=
  ⟨by decide, c3_verification_failures (Token.malformed "xx") 5 req0 up10 dbNoSub (by decide)⟩

/-- C4: when the token verifies, the admission check passes, the request
is a text request and the upstream call raises, the chat request ends in
the unhandled upstream exception and returns the store unchanged — in
particular the subscription row, hence tokens_used, after the failed
request equals its value before. -/
theorem c4_upstream_failure_leaves_usage_unchanged (now : Int) (req : ChatRequest)
    (tok : Token) (db : DB) (uid : Nat) (sub : Subscription)
    (hdec : decodeSub tok secretKey = some uid)
    (hfs : findSub db uid = some sub)
    (hadm : ¬(now > sub.cycle_end ∨ sub.tokens_used ≥ sub.quota))
    (htext : req.type = "text") :
    chat now req tok Upstream.failed db = (Except.error Err.unhandled, db) ∧
    findSub (chat now req tok Upstream.failed db).2 uid = findSub db uid := by
  have h : chat now req tok Upstream.failed db = (Except.error Err.unhandled, db) := by
    simp [chat, chatAdmitted, hdec, hfs, hadm, htext]
  exact ⟨h, by rw [h]⟩

/-- C4 witness: the theorem applied to the freshly registered store,
whose single subscription is admitted at time 0. -/
theorem c4_upstream_failure_witness :
    (decodeSub tok1 secretKey = some 1 ∧
     findSub dbReg 1 = some { id := 1, user_id := 1, cycle_end := thirtyDays } ∧
     req0.type = "text") ∧
    (chat 0 req0 tok1 Upstream.failed dbReg = (Except.error Err.unhandled, dbReg) ∧
     findSub (chat 0 req0 tok1 Upstream.failed dbReg).2 1 = findSub dbReg 1) :=
  ⟨⟨by decide, by decide, by decide⟩,
   c4_upstream_failure_leaves_usage_unchanged 0 req0 tok1 dbReg 1
     { id := 1, user_id := 1, cycle_end := thirtyDays }
     (by decide) (by decide) (by decide) (by decide)⟩

/-- C5: registering an email that is not yet present succeeds and appends
a subscription row whose tokens_used is 0, whose quota is 500 and whose
cycle_end is the registration time plus 30 days. -/
theorem c5_fresh_cycle_defaults (now : Int) (email password : String) (db : DB)
    (h : findUser db email = none) :
    ∃ db', register now email password db = (Except.ok "Registered! Login now.", db') ∧
      db'.subs.getLast? = some { id := db.nextSubId, user_id := db.nextUserId,
                                 status := "active", cycle_end := now + thirtyDays,
                                 tokens_used := 0, quota := 500 } := by
  refine ⟨(register now email password db).2, ?_, ?_⟩
  · simp [register, h]
  · simp [register, h, List.getLast?_append_cons]

/-- C5 witness: the theorem applied to the empty store at time 0. -/
theorem c5_fresh_cycle_witness :
    findUser initDB "a@x.com" = none ∧
    (∃ db', register 0 "a@x.com" "pw123" initDB = (Except.ok "Registered! Login now.", db') ∧
      db'.subs.getLast? = some { id := initDB.nextSubId, user_id := initDB.nextUserId,
                                 status := "active", cycle_end := 0 + thirtyDays,
                                 tokens_used := 0, quota := 500 }) :=
  ⟨by decide, c5_fresh_cycle_defaults 0 "a@x.com" "pw123" initDB (by decide)⟩

/-- C6: starting from a store that has no user row for the email (and no
stray subscription row under the fresh user id), the first registration
succeeds, the second registration of the same email fails with the 400
"Email already registered" error and leaves the store exactly as it was,
and that store holds exactly one user row for the email and exactly one
subscription row for the new account. -/
theorem c6_duplicate_registration (now1 now2 : Int) (e p1 p2 : String) (db db1 : DB)
    (hu : findUser db e = none)
    (hc : countUsers db e = 0)
    (hs : countSubs db db.nextUserId = 0)
    (hdb1 : db1 = (register now1 e p1 db).2) :
    (register now1 e p1 db).1 = Except.ok "Registered! Login now." ∧
    register now2 e p2 db1 = (Except.error (Err.http 400 "Email already registered"), db1) ∧
    countUsers db1 e = 1 ∧ countSubs db1 db.nextUserId = 1 := by
  have hok : (register now1 e p1 db).1 = Except.ok "Registered! Login now." := by
    simp [register, hu]
  have husers : db1.users = db.users ++
      [{ id := db.nextUserId, email := e, hashed_password := pwd_hash p1 }] := by
    rw [hdb1]; simp [register, hu]
  have hsubs : db1.subs = db.subs ++
      [{ id := db.nextSubId, user_id := db.nextUserId, cycle_end := now1 + thirtyDays }] := by
    rw [hdb1]; simp [register, hu]
  have hfind : (findUser db1 e).isSome = true := by
    rw [findUser, List.find?_isSome]
    exact ⟨_, by rw [husers]; exact List.mem_append_right _ (List.mem_singleton.mpr rfl),
           by simp⟩
  refine ⟨hok, ?_, ?_, ?_⟩
  · simp [register, hfind]
  · rw [countUsers, husers, List.countP_append]
    rw [countUsers] at hc
    simp [hc, List.countP_cons]
  · rw [countSubs, hsubs, List.countP_append]
    rw [countSubs] at hs
    simp [hs, List.countP_cons]

/-- C6 witness: the theorem applied to the empty store with two
registrations of a@x.com. -/
theorem c6_duplicate_registration_witness :
    (findUser initDB "a@x.com" = none ∧ countUsers initDB "a@x.com" = 0 ∧
     countSubs initDB initDB.nextUserId = 0) ∧
    ((register 0 "a@x.com" "p1" initDB).1 = Except.ok "Registered! Login now." ∧
     register 7 "a@x.com" "p2" ((register 0 "a@x.com" "p1" initDB).2) =
       (Except.error (Err.http 400 "Email already registered"),
        (register 0 "a@x.com" "p1" initDB).2) ∧
     countUsers ((register 0 "a@x.com" "p1" initDB).2) "a@x.com" = 1 ∧
     countSubs ((register 0 "a@x.com" "p1" initDB).2) initDB.nextUserId = 1) :=
  ⟨⟨by decide, by decide, by decide⟩,
   c6_duplicate_registration 0 7 "a@x.com" "p1" "p2" initDB _
     (by decide) (by decide) (by decide) rfl⟩

/-- C7: a login with an email that has no account and a login with an
existing email whose password does not verify produce one and the same
400 "Invalid credentials" error — the two failure paths are
indistinguishable to the caller. -/
theorem c7_login_failures_indistinguishable (db : DB) (e1 p1 e2 p2 : String) (u : User)
    (h1 : findUser db e1 = none)
    (h2 : findUser db e2 = some u)
    (h3 : pwd_verify p2 u.hashed_password = false) :
    login e2 p2 db = Except.error (Err.http 400 "Invalid credentials") ∧
    login e2 p2 db = login e1 p1 db := by
  have ha : login e1 p1 db = Except.error (Err.http 400 "Invalid credentials") := by
    simp [login, h1]
  have hb : login e2 p2 db = Except.error (Err.http 400 "Invalid credentials") := by
    simp [login, h2, h3]
  exact ⟨hb, hb.trans ha.symm⟩

/-- C7 witness: against the store holding a@x.com with password pw123, a
login as the unknown b@x.com and a login as a@x.com with a wrong password
yield the same error. -/
theorem c7_login_failures_witness :
    (findUser dbReg "b@x.com" = none ∧ findUser dbReg "a@x.com" = some userA ∧
     pwd_verify "wrong" userA.hashed_password = false) ∧
    (login "a@x.com" "wrong" dbReg = Except.error (Err.http 400 "Invalid credentials") ∧
     login "a@x.com" "wrong" dbReg = login "b@x.com" "whatever" dbReg) :=
  ⟨⟨by decide, by decide, by decide⟩,
   c7_login_failures_indistinguishable dbReg "b@x.com" "whatever" "a@x.com" "wrong" userA
     (by decide) (by decide) (by decide)⟩

/-- C8: for every account id and every request context — in particular at
every later time now — the token that login issues for that id decodes
back to the same id, and chat on that token always proceeds past
verification into the admitted pipeline for that id: verification is a
round-trip inverse of issuance and never fails, whatever time has
elapsed, because the issued token carries no expiry claim. -/
theorem c8_token_roundtrip_time_independent (uid : Nat) (now : Int)
    (req : ChatRequest) (up : Upstream) (db : DB) :
    decodeSub (jwt_encode uid secretKey) secretKey = some uid ∧
    chat now req (jwt_encode uid secretKey) up db = chatAdmitted now req uid up db := by
  constructor
  · simp [decodeSub, jwt_encode]
  · simp [chat, decodeSub, jwt_encode]

/-- C9 counterexample: at a concrete admitted request whose type is
"image", the chat handler answers with HTTP success (nothing is raised)
carrying the {"error": "Only text supported"} body — the request is not
rejected with an UnsupportedRequestType error as claimed. -/
theorem c9_counterexample :
    (chat 0 { message := "hi", type := "image" } tok1 up10 dbReg).1 =
      Except.ok ChatBody.onlyTextSupported ∧
    isRaised (chat 0 { message := "hi", type := "image" } tok1 up10 dbReg).1 = false := by
  decide

/-- C9 amended: a chat request whose type is not "text", after passing
token verification and admission, is answered with the explicit
{"error": "Only text supported"} body inside an HTTP success response —
never silently dropped and never given a completion, but delivered as a
200-status body rather than a raised UnsupportedRequestType error. -/
theorem c9_nontext_returns_error_body (now : Int) (req : ChatRequest) (tok : Token)
    (up : Upstream) (db : DB) (uid : Nat) (sub : Subscription)
    (hdec : decodeSub tok secretKey = some uid)
    (hfs : findSub db uid = some sub)
    (hadm : ¬(now > sub.cycle_end ∨ sub.tokens_used ≥ sub.quota))
    (hty : req.type ≠ "text") :
    chat now req tok up db = (Except.ok ChatBody.onlyTextSupported, db) := by
  simp [chat, chatAdmitted, hdec, hfs, hadm, hty]

/-- C9 witness: the amended theorem applied to an admitted request of
type "image" on the freshly registered store. -/
theorem c9_nontext_witness :
    (decodeSub tok1 secretKey = some 1 ∧
     findSub dbReg 1 = some { id := 1, user_id := 1, cycle_end := thirtyDays } ∧
     ChatRequest.type { message := "hi", type := "image" } ≠ "text") ∧
    chat 0 { message := "hi", type := "image" } tok1 up10 dbReg =
      (Except.ok ChatBody.onlyTextSupported, dbReg) :=
  ⟨⟨by decide, by decide, by decide⟩,
   c9_nontext_returns_error_body 0 { message := "hi", type := "image" } tok1 up10 dbReg 1
     { id := 1, user_id := 1, cycle_end := thirtyDays }
     (by decide) (by decide) (by decide) (by decide)⟩

/-- Every branch of the admitted chat pipeline returns the store it was
given: the handler performs no write. -/
theorem chatAdmitted_preserves_db (now : Int) (req : ChatRequest) (uid : Nat)
    (up : Upstream) (db : DB) : (chatAdmitted now req uid up db).2 = db := by
  unfold chatAdmitted
  rcases findSub db uid with _ | sub
  · rfl
  · by_cases hrej : now > sub.cycle_end ∨ sub.tokens_used ≥ sub.quota
    · simp [hrej]
    · by_cases hty : req.type = "text"
      · cases up <;> simp [hrej, hty]
      · simp [hrej, hty]

/-- The chat handler never writes to the store. -/
theorem chat_preserves_db (now : Int) (req : ChatRequest) (tok : Token)
    (up : Upstream) (db : DB) : (chat now req tok up db).2 = db := by
  unfold chat
  rcases decodeSub tok secretKey with _ | uid
  · rfl
  · exact chatAdmitted_preserves_db now req uid up db

/-- Registration preserves the all-usage-zero property of the
subscription table: the only row it adds carries the default
tokens_used = 0. -/
theorem register_preserves_zero_usage (now : Int) (e p : String) (db : DB)
    (h : (db.subs.all fun s => s.tokens_used == 0) = true) :
    (((register now e p db).2).subs.all fun s => s.tokens_used == 0) = true := by
  unfold register
  by_cases hc : (findUser db e).isSome
  · simpa [hc] using h
  · simp [hc, List.all_append, h]

/-- One step of any operation preserves the all-usage-zero property. -/
theorem step_preserves_zero_usage (db : DB) (op : Op)
    (h : (db.subs.all fun s => s.tokens_used == 0) = true) :
    (((step db op).subs).all fun s => s.tokens_used == 0) = true := by
  cases op with
  | opRegister now e p => exact register_preserves_zero_usage now e p db h
  | opLogin e p => exact h
  | opChat now r t u =>
      show (((chat now r t u db).2).subs.all fun s => s.tokens_used == 0) = true
      rw [chat_preserves_db]
      exact h
  | opUsage t => exact h

/-- Any operation sequence preserves the all-usage-zero property. -/
theorem run_preserves_zero_usage (ops : List Op) : ∀ db : DB,
    (db.subs.all fun s => s.tokens_used == 0) = true →
    (((run db ops).subs).all fun s => s.tokens_used == 0) = true := by
  induction ops with
  | nil => intro db h; exact h
  | cons op rest ih =>
      intro db h
      rw [run]
      exact ih (step db op) (step_preserves_zero_usage db op h)

/-- C10: in every store reachable from the fresh store by any sequence of
register, login, chat and usage operations, every subscription row has
tokens_used = 0 — no operation of the system ever increases tokens_used. -/
theorem c10_tokens_used_always_zero (ops : List Op) :
    (((run initDB ops).subs).all fun s => s.tokens_used == 0) = true :=
  run_preserves_zero_usage ops initDB (by decide)

end AnceAI
